import Mathlib

set_option linter.unusedVariables false

/-!
Shallow embedding of the Go HTTP server in `main.go` of the
Makefile-Learning repository, together with proofs of the specified
properties of its three routes, its port resolution and its startup
error handling.

The Go program consists of two package-level constants (`defaultPort`,
`version`), a `main` function that resolves a port, registers three
handlers on the default `ServeMux` and calls `ListenAndServe`, and the
three handlers `handleRoot`, `handleHealth`, `handleVersion`, each of
which writes a fixed (or near-fixed) line to the response writer.
Handlers are embedded with explicit state passing over the package-level
constant state, and `fmt.Fprintf` / `WriteHeader` are embedded as pure
operations on a response-writer record that mirrors `net/http`
semantics (an implicit `WriteHeader(200)` precedes the first body
write; a repeated `WriteHeader` is ignored).
-/

namespace MakefileApp

/-- Embedding of the Go constant `defaultPort = "8080"` from main.go. -/
def defaultPort : String := "8080"

/-- Embedding of the Go constant `version = "1.0.0"` from main.go. -/
def version : String := "1.0.0"

/-- An inbound HTTP request as observable by a handler: method, URL path,
raw query string, header list and body. -/
structure Request where
  method : String
  path : String
  query : String
  headers : List (String × String)
  body : String
  deriving DecidableEq, Repr

/-- The package-level state visible to the handlers. The Go program has no
mutable package state; its only package-level bindings are the two `const`
strings, carried here so that "handlers mutate no shared state" is a real
statement about the embedding. -/
structure ServerState where
  defaultPort : String
  version : String
  deriving DecidableEq, Repr

/-- The package state at process start: the two constants of main.go. -/
def initialState : ServerState := ⟨defaultPort, version⟩

/-- A response writer in the style of `net/http.ResponseWriter`: the status
code explicitly written so far (if any) and the accumulated body. -/
structure ResponseWriter where
  status : Option Nat
  body : String
  deriving DecidableEq, Repr

/-- The writer handed to a handler before anything has been written. -/
def freshWriter : ResponseWriter := ⟨none, ""⟩

/-- Embedding of `ResponseWriter.WriteHeader`: records the status code; a
second call is ignored (net/http logs "superfluous WriteHeader" and keeps
the first code). -/
def writeHeader (w : ResponseWriter) (code : Nat) : ResponseWriter :=
  match w.status with
  | some _ => w
  | none => { w with status := some code }

/-- Embedding of `fmt.Fprintf(w, s)` on a response writer: net/http performs
an implicit `WriteHeader(200)` on the first body write, then appends the
bytes. -/
def write (w : ResponseWriter) (s : String) : ResponseWriter :=
  { writeHeader w 200 with body := w.body ++ s }

/-- Embedding of `handleRoot` from main.go: one `fmt.Fprintf` of the fixed
welcome line. The `Except` result carries the (absent) application error
path; the Go body has no failure branch. -/
def handleRoot (s : ServerState) (w : ResponseWriter) (r : Request) :
    Except String (ServerState × ResponseWriter) :=
  Except.ok (s, write w "Hello! Welcome to the Go Makefile Project!\n")

/-- Embedding of `handleHealth` from main.go: an explicit
`WriteHeader(http.StatusOK)` followed by `fmt.Fprintf(w, "OK\n")`. -/
def handleHealth (s : ServerState) (w : ResponseWriter) (r : Request) :
    Except String (ServerState × ResponseWriter) :=
  Except.ok (s, write (writeHeader w 200) "OK\n")

/-- Embedding of `handleVersion` from main.go:
`fmt.Fprintf(w, "Version: %s\n", version)` reading the version constant
from the package state. -/
def handleVersion (s : ServerState) (w : ResponseWriter) (r : Request) :
    Except String (ServerState × ResponseWriter) :=
  Except.ok (s, write w ("Version: " ++ s.version ++ "\n"))

/-- Dispatch of the default `ServeMux` with the patterns registered in
`main`: the exact patterns `/health` and `/version` match only their own
path, and the pattern `/` is the catch-all that receives every other
path. -/
def serveMux (s : ServerState) (w : ResponseWriter) (r : Request) :
    Except String (ServerState × ResponseWriter) :=
  if r.path = "/health" then handleHealth s w r
  else if r.path = "/version" then handleVersion s w r
  else handleRoot s w r

/-- An HTTP response as seen by the client: status code and body. -/
structure Response where
  status : Nat
  body : String
  deriving DecidableEq, Repr

/-- Complete handling of one request: run the mux on a fresh writer and read
off the final status (200 when never explicitly written, as in net/http)
and the final body; `none` would mark an application-level failure. -/
def serverResponse (s : ServerState) (r : Request) :
    Option (ServerState × Response) :=
  match serveMux s freshWriter r with
  | Except.ok (s2, w) => some (s2, ⟨w.status.getD 200, w.body⟩)
  | Except.error _ => none

/-- Embedding of the literal `port := "3000"` assignment in `main`. -/
def configuredPort : String := "3000"

/-- Port resolution in `main`: fall back to `defaultPort` when the
configured value is empty. The Boolean records whether the fallback branch
executed, i.e. whether `defaultPort` was read. -/
def resolvePort : String × Bool :=
  let port := configuredPort
  if port = "" then (defaultPort, true) else (port, false)

/-- Outcome of running `main`: either `log.Fatal` on a bind error (logged
message plus `os.Exit` code) or serving forever on the bound address. -/
inductive MainResult where
  | fatal (err : String) (exitCode : Nat)
  | serving (addr : String)
  deriving DecidableEq, Repr

/-- Embedding of `main`: resolve the port, then `ListenAndServe(":"+port)`.
The parameter abstracts the OS socket outcome: `some e` is a bind error
`e`, on which `log.Fatal(err)` logs and exits with code 1; `none` means
the listener bound and the server serves forever. -/
def goMain (bindErr : Option String) : MainResult :=
  let port := (resolvePort).1
  match bindErr with
  | some e => MainResult.fatal e 1
  | none => MainResult.serving (":" ++ port)

/-- Process execution after startup: handle a list of requests in order,
threading the package state. -/
def runRequests (s : ServerState) : List Request → ServerState
  | [] => s
  | r :: rs =>
    match serverResponse s r with
    | some (s2, _) => runRequests s2 rs
    | none => runRequests s rs

/-- Handling a request never changes the package state: every branch of the
mux returns the state it was given. -/
theorem serverResponse_state_fixed (s : ServerState) (r : Request) :
    ∃ resp, serverResponse s r = some (s, resp) := by
  unfold serverResponse serveMux handleHealth handleVersion handleRoot
  split_ifs <;> exact ⟨_, rfl⟩

/-- The response depends only on the request path: no handler reads the
method, query, headers or body. -/
theorem serverResponse_only_path (s : ServerState) (r₁ r₂ : Request)
    (h : r₁.path = r₂.path) :
    serverResponse s r₁ = serverResponse s r₂ := by
  unfold serverResponse serveMux handleHealth handleVersion handleRoot
  rw [h]

/-- C1: every request whose path is `/` receives status 200 with body
exactly "Hello! Welcome to the Go Makefile Project!\n", whatever its
method, query, headers or body, and the package state is unchanged. -/
theorem requests_to_root_get_welcome (s : ServerState) (r : Request)
    (h : r.path = "/") :
    serverResponse s r =
      some (s, ⟨200, "Hello! Welcome to the Go Makefile Project!\n"⟩) := by
  unfold serverResponse serveMux handleRoot
  rw [h]
  rfl

/-- Witness for C1 at a concrete POST request carrying a query, a header
and a body. -/
theorem requests_to_root_get_welcome_witness :
    serverResponse initialState ⟨"POST", "/", "a=1", [("X-Test", "y")], "data"⟩ =
      some (initialState, ⟨200, "Hello! Welcome to the Go Makefile Project!\n"⟩) :=
  requests_to_root_get_welcome initialState
    ⟨"POST", "/", "a=1", [("X-Test", "y")], "data"⟩ rfl

/-- C2: every request whose path is `/health` receives status 200 with body
exactly "OK\n", whatever its method. -/
theorem requests_to_health_get_ok (s : ServerState) (r : Request)
    (h : r.path = "/health") :
    serverResponse s r = some (s, ⟨200, "OK\n"⟩) := by
  unfold serverResponse serveMux handleHealth
  rw [h]
  rfl

/-- Witness for C2 at a concrete DELETE request to /health. -/
theorem requests_to_health_get_ok_witness :
    serverResponse initialState ⟨"DELETE", "/health", "", [], ""⟩ =
      some (initialState, ⟨200, "OK\n"⟩) :=
  requests_to_health_get_ok initialState ⟨"DELETE", "/health", "", [], ""⟩ rfl

/-- C3: every request whose path is `/version` receives status 200 with
body exactly "Version: 1.0.0\n", which is "Version: " ++ version ++ "\n"
for the version constant "1.0.0". -/
theorem requests_to_version_get_version (r : Request)
    (h : r.path = "/version") :
    serverResponse initialState r = some (initialState, ⟨200, "Version: 1.0.0\n"⟩) ∧
    "Version: 1.0.0\n" = "Version: " ++ version ++ "\n" ∧
    version = "1.0.0" := by
  refine ⟨?_, rfl, rfl⟩
  unfold serverResponse serveMux handleVersion
  rw [h]
  rfl

/-- Witness for C3 at a concrete PUT request to /version. -/
theorem requests_to_version_get_version_witness :
    serverResponse initialState ⟨"PUT", "/version", "", [], "x"⟩ =
      some (initialState, ⟨200, "Version: 1.0.0\n"⟩) ∧
    "Version: 1.0.0\n" = "Version: " ++ version ++ "\n" ∧
    version = "1.0.0" :=
  requests_to_version_get_version ⟨"PUT", "/version", "", [], "x"⟩ rfl

/-- C4: handlers are deterministic and request-independent: two requests to
the same registered path get identical responses, that response has status
200, and the package state is unchanged by handling. -/
theorem handlers_deterministic_stateless (s : ServerState) (r₁ r₂ : Request)
    (hp : r₁.path = r₂.path)
    (hreg : r₁.path = "/" ∨ r₁.path = "/health" ∨ r₁.path = "/version") :
    serverResponse s r₁ = serverResponse s r₂ ∧
    ∃ resp, serverResponse s r₁ = some (s, resp) ∧ resp.status = 200 := by
  refine ⟨serverResponse_only_path s r₁ r₂ hp, ?_⟩
  unfold serverResponse serveMux handleHealth handleVersion handleRoot
  rcases hreg with h | h | h <;> rw [h] <;> exact ⟨_, rfl, rfl⟩

/-- Witness for C4: a GET and a POST to /version, with different queries
and bodies, get one identical 200 response. -/
theorem handlers_deterministic_stateless_witness :
    serverResponse initialState ⟨"GET", "/version", "", [], ""⟩ =
      serverResponse initialState ⟨"POST", "/version", "q=1", [], "b"⟩ ∧
    ∃ resp, serverResponse initialState ⟨"GET", "/version", "", [], ""⟩ =
      some (initialState, resp) ∧ resp.status = 200 :=
  handlers_deterministic_stateless initialState
    ⟨"GET", "/version", "", [], ""⟩ ⟨"POST", "/version", "q=1", [], "b"⟩
    rfl (Or.inr (Or.inr rfl))

/-- C5: a bind failure is logged and terminates the process with exit code
1 (non-zero) without serving; and a run of main is fatal exactly when the
bind failed, so this is the only fatal startup mode. -/
theorem bind_failure_is_fatal (e : String) :
    goMain (some e) = MainResult.fatal e 1 ∧
    (∀ err code, goMain (some e) = MainResult.fatal err code → code ≠ 0) ∧
    (∀ addr, goMain (some e) ≠ MainResult.serving addr) ∧
    (∀ b : Option String,
      (∃ err code, goMain b = MainResult.fatal err code) ↔ b.isSome) := by
  refine ⟨rfl, ?_, ?_, ?_⟩
  · intro err code h
    cases h
    decide
  · intro addr h
    cases h
  · intro b
    cases b with
    | none => simp [goMain]
    | some e => simp [goMain]

/-- C6: the defaultPort fallback branch is dead: the configured port is the
non-empty literal "3000", resolution never reads defaultPort (the trace
flag is false), and main binds ":3000". -/
theorem default_port_fallback_dead :
    resolvePort = (configuredPort, false) ∧
    configuredPort = "3000" ∧
    configuredPort ≠ "" ∧
    goMain none = MainResult.serving ":3000" := by
  refine ⟨rfl, rfl, ?_, rfl⟩
  decide

/-- Witness for C5 at a concrete bind error message. -/
theorem bind_failure_is_fatal_witness :
    goMain (some "listen tcp :3000: address already in use") =
      MainResult.fatal "listen tcp :3000: address already in use" 1 ∧
    (∀ err code,
      goMain (some "listen tcp :3000: address already in use") =
        MainResult.fatal err code → code ≠ 0) ∧
    (∀ addr,
      goMain (some "listen tcp :3000: address already in use") ≠
        MainResult.serving addr) ∧
    (∀ b : Option String,
      (∃ err code, goMain b = MainResult.fatal err code) ↔ b.isSome) :=
  bind_failure_is_fatal "listen tcp :3000: address already in use"

/-- C7: started with no port override and a successful bind, main serves on
address ":3000", and a GET /health then receives 200 with body "OK\n". -/
theorem startup_binds_3000_and_health_ok :
    goMain none = MainResult.serving ":3000" ∧
    serverResponse initialState ⟨"GET", "/health", "", [], ""⟩ =
      some (initialState, ⟨200, "OK\n"⟩) := by
  exact ⟨rfl, rfl⟩

/-- Handling any sequence of requests leaves the package state where it
started. -/
theorem runRequests_id (s : ServerState) (rs : List Request) :
    runRequests s rs = s := by
  induction rs generalizing s with
  | nil => rfl
  | cons r rest ih =>
    obtain ⟨resp, hresp⟩ := serverResponse_state_fixed s r
    unfold runRequests
    rw [hresp]
    exact ih s

/-- C8: the configuration invariant holds for the whole process lifetime:
after any sequence of requests the package state still equals the initial
constants, the version string is non-empty, and the port used by main
parses to a number in the valid TCP range 1 to 65535. -/
theorem config_invariant_holds (rs : List Request) :
    runRequests initialState rs = initialState ∧
    version ≠ "" ∧
    initialState.version = version ∧
    (∃ n : Nat, (resolvePort).1 = toString n ∧ 1 ≤ n ∧ n ≤ 65535) := by
  exact ⟨runRequests_id initialState rs, by decide, rfl,
    ⟨3000, by decide, by decide, by decide⟩⟩

/-- Witness for C8 at a concrete two-request trace. -/
theorem config_invariant_holds_witness :
    runRequests initialState
      [⟨"GET", "/", "", [], ""⟩, ⟨"POST", "/health", "", [], ""⟩] =
      initialState ∧
    version ≠ "" ∧
    initialState.version = version ∧
    (∃ n : Nat, (resolvePort).1 = toString n ∧ 1 ≤ n ∧ n ≤ 65535) :=
  config_invariant_holds
    [⟨"GET", "/", "", [], ""⟩, ⟨"POST", "/health", "", [], ""⟩]

/-- C9: all three handlers are infallible: on every state, writer and
request each returns an ok result, never the error alternative. -/
theorem handlers_infallible (s : ServerState) (w : ResponseWriter)
    (r : Request) :
    (∃ out, handleRoot s w r = Except.ok out) ∧
    (∃ out, handleHealth s w r = Except.ok out) ∧
    (∃ out, handleVersion s w r = Except.ok out) :=
  ⟨⟨_, rfl⟩, ⟨_, rfl⟩, ⟨_, rfl⟩⟩

/-- Witness for C9 at a concrete state, writer and request. -/
theorem handlers_infallible_witness :
    (∃ out, handleRoot initialState freshWriter ⟨"GET", "/", "", [], ""⟩ =
      Except.ok out) ∧
    (∃ out, handleHealth initialState freshWriter ⟨"GET", "/", "", [], ""⟩ =
      Except.ok out) ∧
    (∃ out, handleVersion initialState freshWriter ⟨"GET", "/", "", [], ""⟩ =
      Except.ok out) :=
  handlers_infallible initialState freshWriter ⟨"GET", "/", "", [], ""⟩

/-- C10: any request whose path is neither "/health" nor "/version" is
dispatched by the mux to handleRoot and receives status 200 with the
welcome body; and no request at all ever receives a 404 from the mux. -/
theorem catch_all_routes_to_root (s : ServerState) (r : Request)
    (h₁ : r.path ≠ "/health") (h₂ : r.path ≠ "/version") :
    serveMux s freshWriter r = handleRoot s freshWriter r ∧
    serverResponse s r =
      some (s, ⟨200, "Hello! Welcome to the Go Makefile Project!\n"⟩) ∧
    (∀ r₂ : Request, ∀ p resp, serverResponse s r₂ = some (p, resp) →
      resp.status ≠ 404) := by
  refine ⟨?_, ?_, ?_⟩
  · unfold serveMux
    rw [if_neg h₁, if_neg h₂]
  · unfold serverResponse serveMux handleRoot
    rw [if_neg h₁, if_neg h₂]
    rfl
  · intro r₂ p resp hr
    unfold serverResponse serveMux handleHealth handleVersion handleRoot
      at hr
    split_ifs at hr <;>
      · simp only [Option.some.injEq, Prod.mk.injEq] at hr
        rw [← hr.2]
        norm_num [write, writeHeader, freshWriter]

/-- Witness for C10 at the concrete unregistered paths "/foo" and
"/health/extra". -/
theorem catch_all_routes_to_root_witness :
    (serveMux initialState freshWriter ⟨"GET", "/foo", "", [], ""⟩ =
      handleRoot initialState freshWriter ⟨"GET", "/foo", "", [], ""⟩ ∧
    serverResponse initialState ⟨"GET", "/foo", "", [], ""⟩ =
      some (initialState, ⟨200, "Hello! Welcome to the Go Makefile Project!\n"⟩) ∧
    (∀ r₂ : Request, ∀ p resp,
      serverResponse initialState r₂ = some (p, resp) → resp.status ≠ 404)) ∧
    serverResponse initialState ⟨"GET", "/health/extra", "", [], ""⟩ =
      some (initialState, ⟨200, "Hello! Welcome to the Go Makefile Project!\n"⟩) := by
  refine ⟨catch_all_routes_to_root initialState
    ⟨"GET", "/foo", "", [], ""⟩ (by decide) (by decide), ?_⟩
  exact (catch_all_routes_to_root initialState
    ⟨"GET", "/health/extra", "", [], ""⟩ (by decide) (by decide)).2.1

end MakefileApp
